import Mathlib

/-!
# Shallow embedding of `CytoPy/data/populations.py`

This file embeds the population / geometry data model and the population
merge engine of the repository and proves properties about them.

Modelling conventions:
* Python floats are modelled as `ℚ`; event indices (numpy integer arrays)
  as `List ℤ`.
* mongoengine fields that may be unset (`None`) are `Option`-typed.
* Python exceptions are an explicit `PyError` sum type; code paths that can
  raise return `Except PyError _`.
* The external `shapely` library (an out-of-scope collaborator of the
  core: planar-geometry predicates, intersection areas and polygon union)
  is abstracted as a `Shapely` record of oracle functions over coordinate
  lists; the repository's own logic is defined over an arbitrary oracle.
* Runtime warnings emitted through `warnings.warn` and in-place mutation of
  the argument populations are made explicit: the merge functions return a
  `MergeOutcome` holding the result, the emitted warnings, and the
  post-call states of the two argument populations.
-/

set_option autoImplicit false

namespace CytoPy

/- The Batteries rational-arithmetic primitives are `@[irreducible]`,
which blocks `decide` on concrete rational computations; restore the
default reducibility for this development. -/
attribute [local semireducible] Rat.add Rat.mul Rat.inv Rat.sub Rat.ofScientific

/-- Python exceptions relevant to `populations.py`, plus the spec's
`GeometryError` (which no code in the repository defines or raises). -/
inductive PyError where
  | assertionError (msg : String)
  | attributeError (msg : String)
  | typeError (msg : String)
  | valueError (msg : String)
  | geometryError
  deriving DecidableEq

/-- Fields shared by the geometry variants (`PopulationGeometry` base
class): channel names `x`, `y` and transform names `transform_x`,
`transform_y`; all optional string fields. -/
structure GeomBase where
  x : Option String := none
  y : Option String := none
  transform_x : Option String := none
  transform_y : Option String := none
  deriving DecidableEq

/-- The geometry attached to a population: the `Threshold` subclass
(`x_threshold` / `y_threshold` cut points) or the `Polygon` subclass
(`x_values` / `y_values` coordinate lists). -/
inductive PopulationGeometry where
  | threshold (base : GeomBase) (x_threshold y_threshold : Option ℚ)
  | polygon (base : GeomBase) (x_values y_values : List ℚ)
  deriving DecidableEq

namespace PopulationGeometry

/-- The base-class fields of either variant. -/
def base : PopulationGeometry → GeomBase
  | .threshold b _ _ => b
  | .polygon b _ _ => b

end PopulationGeometry

/-- A `Cluster` embedded document: id, optional meta label, event count,
proportion of root and the shadow `_index` array. -/
structure Cluster where
  cluster_id : String
  meta_label : Option String := none
  n : Option ℕ := none
  prop_of_root : Option ℚ := none
  index : List ℤ := []
  deriving DecidableEq

/-- A `Population` embedded document.  `index` models the shadow `_index`
event array and `ctrl_index` the shadow `_ctrl_index` dictionary; the
remaining fields mirror the mongoengine field declarations. -/
structure Population where
  population_name : Option String := none
  n : Option ℕ := none
  parent : String := "root"
  prop_of_parent : Option ℚ := none
  prop_of_total : Option ℚ := none
  warnings : List String := []
  geom : Option PopulationGeometry := none
  clusters : List Cluster := []
  definition : Option String := none
  signature : List (String × ℚ) := []
  index : List ℤ := []
  ctrl_index : List (String × List ℤ) := []
  deriving DecidableEq

/-- A shapely planar shape, represented by the coordinate ring handed to
the `shapely.geometry.Polygon` constructor. -/
abbrev Shape := List (ℚ × ℚ)

/-- Oracle interface for the external `shapely` library: intersection
test, intersection area, area, and the exterior ring of `unary_union` of
two shapes.  The repository's code is defined over an arbitrary oracle. -/
structure Shapely where
  intersects : Shape → Shape → Bool
  intersection_area : Shape → Shape → ℚ
  area : Shape → ℚ
  union_exterior : Shape → Shape → Shape

/-! ## Error and warning message constants (verbatim from the source) -/

def xTransformMsg : String := "X dimension transform differs between left and right populations"

def yTransformMsg : String := "Y dimension transform differs between left and right populations"

def xDimMsg : String := "X dimension differs between left and right populations"

def yDimMsg : String := "Y dimension differs between left and right populations"

def parentMsg : String := "Parent populations do not match"

def geomTypeMsg : String := "Geometries must be of the same type"

def xThresholdMsg : String := "Threshold merge assumes that the populations are derived from the same gate; X threshold should match between populations"

def yThresholdMsg : String := "Threshold merge assumes that the populations are derived from the same gate; Y threshold should match between populations"

def overlapTypeMsg : String := "Only Polygon geometries can be checked for overlap"

def nonOverlapMsg : String := "Invalid: non-overlapping populations"

def clusterVoidMsg : String := "Associated clusters are now void. Repeat clustering on new population"

def ctrlVoidMsg : String := "Associated control indexes are now void. Repeat control gating on new population"

def mergedMarker : String := "MERGED POPULATION"

def linearRingMsg : String := "A LinearRing must have at least 3 coordinate tuples"

def overlapAttrMsg : String := "Threshold object has no attribute overlap"

def noneGeomAttrMsg : String := "NoneType object has no attribute transform_x"

def joinItem0Msg : String := "sequence item 0: expected str instance, NoneType found"

def joinItem1Msg : String := "sequence item 1: expected str instance, NoneType found"

/-! ## Geometry: shape construction and overlap -/

/-- `Polygon.shape`: builds the shapely polygon from
`zip(x_values, y_values)`.  An empty coordinate list yields the (valid)
empty polygon; one or two points make shapely's `LinearRing` constructor
raise a `ValueError`. -/
def polyShape (x_values y_values : List ℚ) : Except PyError Shape :=
  let pts := x_values.zip y_values
  if pts.length = 1 ∨ pts.length = 2 then
    .error (.valueError linearRingMsg)
  else
    .ok pts

/-- `Polygon.overlap(comparison_poly, threshold=0.)`: the fraction of
`self`'s area covered by the intersection with `comparison_poly`, or `0`
when the shapes do not intersect or the fraction is below `threshold`. -/
def Polygon.overlap (S : Shapely) (x_values y_values : List ℚ)
    (comparison_poly : Shape) (threshold : ℚ) : Except PyError ℚ :=
  match polyShape x_values y_values with
  | .error e => .error e
  | .ok s =>
    if S.intersects s comparison_poly then
      let ov := S.intersection_area s comparison_poly / S.area s
      if threshold ≤ ov then .ok ov else .ok 0
    else
      .ok 0

/-- Attribute dispatch for `geom.overlap(...)`: the `Threshold` class (and
the bare base class) defines no `overlap` method, so the call raises an
`AttributeError`; on a `Polygon` it runs `Polygon.overlap`. -/
def geomOverlap (S : Shapely) (g : PopulationGeometry) (comparison_poly : Shape)
    (threshold : ℚ) : Except PyError ℚ :=
  match g with
  | .threshold _ _ _ => .error (.attributeError overlapAttrMsg)
  | .polygon _ xv yv => Polygon.overlap S xv yv comparison_poly threshold

/-! ## Pre-merge validation -/

/-- Accessing `p.geom.<attr>` in Python: an unset geometry (`None`) raises
an `AttributeError`. -/
def getGeom (p : Population) : Except PyError PopulationGeometry :=
  match p.geom with
  | none => .error (.attributeError noneGeomAttrMsg)
  | some g => .ok g

/-- `_check_transforms_dimensions(left, right)`: four assertions comparing
`transform_x`, `transform_y`, `x` and `y` of the two geometries, in source
order. -/
def _check_transforms_dimensions (left right : Population) : Except PyError Unit :=
  match getGeom left with
  | .error e => .error e
  | .ok lg =>
    match getGeom right with
    | .error e => .error e
    | .ok rg =>
      if lg.base.transform_x ≠ rg.base.transform_x then
        .error (.assertionError xTransformMsg)
      else if lg.base.transform_y ≠ rg.base.transform_y then
        .error (.assertionError yTransformMsg)
      else if lg.base.x ≠ rg.base.x then
        .error (.assertionError xDimMsg)
      else if lg.base.y ≠ rg.base.y then
        .error (.assertionError yDimMsg)
      else
        .ok ()

/-- `_check_overlap(left, right, error=True)`: asserts both geometries are
Polygons, builds both shapes, and (when `error`) asserts they intersect. -/
def _check_overlap (S : Shapely) (left right : Population) (error : Bool) :
    Except PyError Bool :=
  match left.geom, right.geom with
  | some (.polygon _ lxv lyv), some (.polygon _ rxv ryv) =>
      match polyShape lxv lyv with
      | .error e => .error e
      | .ok ls =>
        match polyShape rxv ryv with
        | .error e => .error e
        | .ok rs =>
          let ov := S.intersects ls rs
          if error ∧ ov = false then
            .error (.assertionError nonOverlapMsg)
          else
            .ok ov
  | _, _ => .error (.assertionError overlapTypeMsg)

/-! ## Index and signature merging -/

/-- `_merge_index`: `np.unique(np.concatenate([left.index, right.index]))`
— the sorted, deduplicated concatenation of the two event-index arrays. -/
def _merge_index (left right : Population) : List ℤ :=
  ((left.index ++ right.index).dedup).insertionSort (· ≤ ·)

/-- First-match association-list lookup (Python dict access on the row
records handed to `pd.DataFrame`). -/
def sigLookup (s : List (String × ℚ)) (k : String) : Option ℚ :=
  (s.find? (fun kv => kv.1 == k)).map (·.2)

/-- Column order of `pd.DataFrame([left, right])`: keys of the first row
followed by the new keys of the second. -/
def sigKeys (l r : List (String × ℚ)) : List String :=
  (l.map (·.1) ++ r.map (·.1)).dedup

/-- Column-wise mean of one column `k` of `pd.DataFrame([l, r])` with
pandas' default `skipna=True`: a channel present in both signatures gets
the arithmetic mean, a channel present in exactly one gets that single
value (the missing entry is `NaN` and is skipped).  The `(none, none)`
case is unreachable because every column key comes from one of the two
rows. -/
def mergedSigValue (l r : List (String × ℚ)) (k : String) : ℚ :=
  match sigLookup l k, sigLookup r k with
  | some a, some b => (a + b) / 2
  | some a, none => a
  | none, some b => b
  | none, none => 0

/-- `_merge_signatures`: `pd.DataFrame([l, r]).mean().to_dict()`. -/
def _merge_signatures (l r : List (String × ℚ)) : List (String × ℚ) :=
  (sigKeys l r).map (fun k => (k, mergedSigValue l r k))

/-- `",".join([left.definition, right.definition])`: a `TypeError` when
either operand is `None`. -/
def joinDefinitions (a b : Option String) : Except PyError String :=
  match a, b with
  | none, _ => .error (.typeError joinItem0Msg)
  | some _, none => .error (.typeError joinItem1Msg)
  | some a, some b => .ok (a ++ "," ++ b)

/-! ## The merge engine -/

/-- Decidable equality for `Except` results. -/
instance exceptDecEq {ε α : Type} [DecidableEq ε] [DecidableEq α] :
    DecidableEq (Except ε α) := fun a b =>
  match a, b with
  | .error e, .error f =>
      decidable_of_iff (e = f) ⟨fun h => by rw [h], fun h => by injection h⟩
  | .ok x, .ok y =>
      decidable_of_iff (x = y) ⟨fun h => by rw [h], fun h => by injection h⟩
  | .error _, .ok _ => .isFalse (fun h => by injection h)
  | .ok _, .error _ => .isFalse (fun h => by injection h)

/-- Result of a merge call: the returned population (or the exception),
the runtime warnings emitted via `warn`, and the post-call states of the
two argument populations (the source mutates `left.clusters` in place). -/
structure MergeOutcome where
  result : Except PyError Population
  emitted : List String
  left_after : Population
  right_after : Population
  deriving DecidableEq

/-- State of `left` after the cluster-voiding block of `_merge_thresholds`:
when either side has clusters, `left.clusters` is cleared in place (the
source assigns the right-hand clearing to a local variable
`right_clusters`, so `right` is never mutated). -/
def clusterVoidLeft (left right : Population) : Population :=
  if left.clusters ≠ [] ∨ right.clusters ≠ [] then { left with clusters := [] } else left

/-- Warnings emitted by the two voiding checks of `_merge_thresholds`, in
source order. -/
def voidWarnings (left right : Population) : List String :=
  (if left.clusters ≠ [] ∨ right.clusters ≠ [] then [clusterVoidMsg] else []) ++
    (if 0 < left.ctrl_index.length ∨ 0 < right.ctrl_index.length then [ctrlVoidMsg] else [])

/-- Body of `_merge_thresholds` after the two threshold assertions have
passed; `lb`, `lxt`, `lyt` are the fields of `left.geom`. -/
def thresholdMergeBody (left right : Population) (new_population_name : String)
    (lb : GeomBase) (lxt lyt : Option ℚ) : MergeOutcome :=
  let left' := clusterVoidLeft left right
  let emitted := voidWarnings left right
  let new_geom : PopulationGeometry := .threshold lb lxt lyt
  match joinDefinitions left'.definition right.definition with
  | .error e => ⟨.error e, emitted, left', right⟩
  | .ok defn =>
    ⟨.ok { population_name := some new_population_name
           n := some (left'.index.length + right.index.length)
           parent := left'.parent
           warnings := left'.warnings ++ right.warnings ++ [mergedMarker]
           geom := some new_geom
           definition := some defn
           signature := _merge_signatures left'.signature right.signature
           index := _merge_index left' right },
     emitted, left', right⟩

/-- `_merge_thresholds(left, right, new_population_name)`: the two
threshold-equality assertions (in source order) followed by
`thresholdMergeBody`.  The new population gets
`n = len(left.index) + len(right.index)` because the `index` keyword is
popped in `Population.__init__` straight into `_index`, bypassing the
setter that would recompute `n`. -/
def _merge_thresholds (left right : Population) (new_population_name : String) :
    MergeOutcome :=
  match left.geom, right.geom with
  | some (.threshold lb lxt lyt), some (.threshold _ rxt ryt) =>
    if lxt ≠ rxt then
      ⟨.error (.assertionError xThresholdMsg), [], left, right⟩
    else if lyt ≠ ryt then
      ⟨.error (.assertionError yThresholdMsg), [], left, right⟩
    else
      thresholdMergeBody left right new_population_name lb lxt lyt
  | _, _ => ⟨.error (.attributeError overlapAttrMsg), [], left, right⟩

/-- `_merge_polygons(left, right, new_population_name)`: checks overlap,
takes the `unary_union` of the two shapes and reads its exterior ring off
as the new coordinate lists.  No voiding warnings, no clearing of
clusters, and no `definition` on the result. -/
def _merge_polygons (S : Shapely) (left right : Population)
    (new_population_name : String) : MergeOutcome :=
  match _check_overlap S left right true with
  | .error e => ⟨.error e, [], left, right⟩
  | .ok _ =>
    match left.geom, right.geom with
    | some (.polygon lb lxv lyv), some (.polygon _ rxv ryv) =>
      let uxy := S.union_exterior (lxv.zip lyv) (rxv.zip ryv)
      let new_geom : PopulationGeometry := .polygon lb (uxy.map (·.1)) (uxy.map (·.2))
      ⟨.ok { population_name := some new_population_name
             n := some (left.index.length + right.index.length)
             parent := left.parent
             warnings := left.warnings ++ right.warnings ++ [mergedMarker]
             geom := some new_geom
             signature := _merge_signatures left.signature right.signature
             index := _merge_index left right },
       [], left, right⟩
    | _, _ => ⟨.error (.assertionError overlapTypeMsg), [], left, right⟩

/-- Python truthiness of `new_population_name or default`: `None` and the
empty string fall back to the default. -/
def pyOrName (given : Option String) (dflt : String) : String :=
  match given with
  | none => dflt
  | some s => if s = "" then dflt else s

/-- Rendering of an optional string inside the default-name f-string. -/
def pyStr (s : Option String) : String :=
  match s with
  | none => "None"
  | some s => s

/-- `isinstance(left_geom, type(right_geom))` over the embedded variants. -/
def sameGeomType : Option PopulationGeometry → Option PopulationGeometry → Bool
  | some (.threshold _ _ _), some (.threshold _ _ _) => true
  | some (.polygon _ _ _), some (.polygon _ _ _) => true
  | none, none => true
  | _, _ => false

/-- `isinstance(left_geom, Threshold)`. -/
def isThresholdGeom : Option PopulationGeometry → Bool
  | some (.threshold _ _ _) => true
  | _ => false

/-- `merge_populations(left, right, new_population_name=None)`: transform
and dimension checks, default name, parent assertion, geometry-type
assertion, then dispatch on the geometry variant. -/
def merge_populations (S : Shapely) (left right : Population)
    (new_population_name : Option String) : MergeOutcome :=
  match _check_transforms_dimensions left right with
  | .error e => ⟨.error e, [], left, right⟩
  | .ok _ =>
    let name := pyOrName new_population_name
      ("merge_" ++ pyStr left.population_name ++ "_" ++ pyStr right.population_name)
    if left.parent ≠ right.parent then
      ⟨.error (.assertionError parentMsg), [], left, right⟩
    else if ¬ sameGeomType left.geom right.geom then
      ⟨.error (.assertionError geomTypeMsg), [], left, right⟩
    else if isThresholdGeom left.geom then
      _merge_thresholds left right name
    else
      _merge_polygons S left right name

/-! ## Concrete fixtures (used by witnesses and counterexamples) -/

/-- A shapely oracle on which nothing intersects. -/
def trivShapely : Shapely :=
  ⟨fun _ _ => false, fun _ _ => 0, fun _ => 0, fun _ _ => []⟩

/-- A shapely oracle on which everything intersects, every intersection
has area 1 and every shape has area 2 (overlap fraction 1/2); unions have
the unit-square exterior. -/
def demoShapely : Shapely :=
  ⟨fun _ _ => true, fun _ _ => 1, fun _ => 2,
   fun _ _ => [(0, 0), (0, 5), (5, 5), (5, 0)]⟩

/-- Shared axis/transform metadata for the fixture geometries. -/
def demoBase : GeomBase :=
  { x := some "CD3", y := some "CD4",
    transform_x := some "logicle", transform_y := some "logicle" }

/-- Axis metadata differing from `demoBase` in `transform_x`. -/
def demoBaseAlt : GeomBase :=
  { x := some "CD3", y := some "CD4",
    transform_x := some "linear", transform_y := some "logicle" }

/-- Threshold geometry with `x_threshold = y_threshold = 2.5`. -/
def thrGeom : PopulationGeometry :=
  .threshold demoBase (some (5 / 2)) (some (5 / 2))

/-- Threshold population with `event_index = {1, 2, 3}`. -/
def leftThr : Population :=
  { population_name := some "left", geom := some thrGeom,
    definition := some "++", index := [1, 2, 3] }

/-- Threshold population with `event_index = {3, 4}`. -/
def rightThr : Population :=
  { population_name := some "right", geom := some thrGeom,
    definition := some "--", index := [3, 4] }

/-- A fixture cluster. -/
def demoCluster : Cluster :=
  { cluster_id := "c1", n := some 2, index := [1, 2] }

/-- `leftThr` carrying one cluster. -/
def leftThrClustered : Population :=
  { leftThr with clusters := [demoCluster] }

/-- Square polygon geometry `(0,0),(0,5),(5,5),(5,0)`. -/
def polyGeomA : PopulationGeometry :=
  .polygon demoBase [0, 0, 5, 5] [0, 5, 5, 0]

/-- Half-square polygon geometry `(2.5,0),(2.5,5),(5,5),(5,0)`. -/
def polyGeomB : PopulationGeometry :=
  .polygon demoBase [5 / 2, 5 / 2, 5, 5] [0, 5, 5, 0]

/-- Polygon population with `event_index = {1, 2, 3}` and one cluster. -/
def leftPoly : Population :=
  { population_name := some "A", geom := some polyGeomA,
    index := [1, 2, 3], clusters := [demoCluster] }

/-- Polygon population with `event_index = {3, 4, 5}`. -/
def rightPoly : Population :=
  { population_name := some "B", geom := some polyGeomB, index := [3, 4, 5] }

/-- `leftThr` with a different parent and a different `transform_x`. -/
def leftThrParentAlt : Population :=
  { leftThr with
    parent := "p1"
    geom := some (.threshold demoBaseAlt (some (5 / 2)) (some (5 / 2))) }

/-- `rightThr` with parent `p2` (axes unchanged). -/
def rightThrParent2 : Population :=
  { rightThr with parent := "p2" }

/-- `rightThr` with `x_threshold = 3.0` instead of `2.5`. -/
def rightThrCut3 : Population :=
  { rightThr with geom := some (.threshold demoBase (some 3) (some (5 / 2))) }

/-- `leftThr` with the `definition` field unset. -/
def leftThrNoDef : Population :=
  { leftThr with definition := none }

/-! ## Helper lemmas -/

theorem sigLookup_map_keys (keys : List String) (f : String → ℚ) (k : String) :
    sigLookup (keys.map (fun x => (x, f x))) k =
      if k ∈ keys then some (f k) else none := by
  induction keys with
  | nil => simp [sigLookup]
  | cons h t ih =>
      unfold sigLookup at ih ⊢
      simp only [List.map_cons]
      by_cases hk : h = k
      · subst hk
        rw [List.find?_cons_of_pos _ (by simp)]
        simp
      · rw [List.find?_cons_of_neg _ (by simp [hk]), ih]
        simp [List.mem_cons, Ne.symm hk]

theorem sigLookup_isSome_mem (s : List (String × ℚ)) (k : String) (a : ℚ)
    (h : sigLookup s k = some a) : k ∈ s.map Prod.fst := by
  unfold sigLookup at h
  rcases Option.map_eq_some'.mp h with ⟨kv, hfind, hsnd⟩
  have hmem := List.mem_of_find?_eq_some hfind
  have hkey := List.find?_some hfind
  have hk : kv.1 = k := by simpa using hkey
  exact hk ▸ List.mem_map_of_mem Prod.fst hmem

theorem mem_sigKeys_left (l r : List (String × ℚ)) (k : String) (a : ℚ)
    (h : sigLookup l k = some a) : k ∈ sigKeys l r := by
  exact List.mem_dedup.mpr (List.mem_append_left _ (sigLookup_isSome_mem l k a h))

theorem mem_sigKeys_right (l r : List (String × ℚ)) (k : String) (b : ℚ)
    (h : sigLookup r k = some b) : k ∈ sigKeys l r := by
  exact List.mem_dedup.mpr (List.mem_append_right _ (sigLookup_isSome_mem r k b h))

theorem sigLookup_merge (l r : List (String × ℚ)) (k : String) (hk : k ∈ sigKeys l r) :
    sigLookup (_merge_signatures l r) k = some (mergedSigValue l r k) := by
  unfold _merge_signatures
  rw [sigLookup_map_keys, if_pos hk]

theorem polyShape_ok_eq (xv yv : List ℚ) (s : Shape)
    (h : polyShape xv yv = .ok s) : s = xv.zip yv := by
  simp only [polyShape] at h
  split at h
  · cases h
  · injection h with h
    exact h.symm

theorem clusterVoidLeft_definition (l r : Population) :
    (clusterVoidLeft l r).definition = l.definition := by
  unfold clusterVoidLeft
  split <;> rfl

theorem clusterVoidLeft_cases (l r : Population) :
    clusterVoidLeft l r = l ∨ clusterVoidLeft l r = { l with clusters := [] } := by
  unfold clusterVoidLeft
  split
  · exact Or.inr rfl
  · exact Or.inl rfl

theorem joinDefinitions_ok_both_some (a b : Option String) (s : String)
    (h : joinDefinitions a b = .ok s) : a ≠ none ∧ b ≠ none := by
  cases a <;> cases b <;> simp [joinDefinitions] at h ⊢

theorem thresholdMergeBody_after (l r : Population) (name : String)
    (lb : GeomBase) (lxt lyt : Option ℚ) :
    (thresholdMergeBody l r name lb lxt lyt).left_after = clusterVoidLeft l r ∧
      (thresholdMergeBody l r name lb lxt lyt).right_after = r := by
  unfold thresholdMergeBody
  dsimp only
  split <;> exact ⟨rfl, rfl⟩

theorem merge_thresholds_after (l r : Population) (name : String) :
    (_merge_thresholds l r name).right_after = r ∧
      ((_merge_thresholds l r name).left_after = l ∨
        (_merge_thresholds l r name).left_after = { l with clusters := [] }) := by
  unfold _merge_thresholds
  split
  · split
    · exact ⟨rfl, Or.inl rfl⟩
    · split
      · exact ⟨rfl, Or.inl rfl⟩
      · refine ⟨(thresholdMergeBody_after ..).2, ?_⟩
        rw [(thresholdMergeBody_after ..).1]
        exact clusterVoidLeft_cases l r
  · exact ⟨rfl, Or.inl rfl⟩

theorem merge_polygons_after (S : Shapely) (l r : Population) (name : String) :
    (_merge_polygons S l r name).left_after = l ∧
      (_merge_polygons S l r name).right_after = r ∧
      (_merge_polygons S l r name).emitted = [] := by
  unfold _merge_polygons
  split
  · exact ⟨rfl, rfl, rfl⟩
  · split <;> exact ⟨rfl, rfl, rfl⟩

/-! ## Claim theorems -/

/-- C1: on the spec's own example (threshold populations with
`event_index = {1,2,3}` and `{3,4}`, identical cuts), the merged
population's `event_index` is the deduplicated union `{1,2,3,4}` but its
`size` field `n` is `5 = len(left.index) + len(right.index)`, not `4`:
the merge passes `n` as the sum of the input lengths and the `index`
keyword bypasses the setter that would recompute `n`, so the invariant
`size == |event_index|` fails on the merge result. -/
theorem merge_size_is_sum_of_input_sizes :
    ((merge_populations trivShapely leftThr rightThr none).result.toOption.map
        (fun p => (p.n, p.index))) = some (some 5, [1, 2, 3, 4]) := by
  decide

/-- C9 counterexample: merging signatures `{a: 1}` and `{a: 2, b: 3}`
maps the channel `b`, present in only the right input, to its single
present value `3` (pandas `mean()` defaults to `skipna=True`), not to
`NaN`; the claim's "not to the single present value" is false. -/
theorem signature_single_channel_counterexample :
    _merge_signatures [("a", 1)] [("a", 2), ("b", 3)] =
      [("a", 3 / 2), ("b", 3)] := by
  decide

/-- C9 amended: the merged signature maps a channel present in both
inputs to the arithmetic mean of the two values, and a channel present in
exactly one input to that input's value (the missing entry is skipped by
the column-wise mean), never to `NaN`. -/
theorem signature_mean_skips_missing (l r : List (String × ℚ)) (k : String) (a b : ℚ) :
    (sigLookup l k = some a → sigLookup r k = some b →
      sigLookup (_merge_signatures l r) k = some ((a + b) / 2)) ∧
    (sigLookup l k = some a → sigLookup r k = none →
      sigLookup (_merge_signatures l r) k = some a) ∧
    (sigLookup l k = none → sigLookup r k = some b →
      sigLookup (_merge_signatures l r) k = some b) := by
  refine ⟨fun h1 h2 => ?_, fun h1 h2 => ?_, fun h1 h2 => ?_⟩
  · rw [sigLookup_merge l r k (mem_sigKeys_left l r k a h1)]
    unfold mergedSigValue
    rw [h1, h2]
  · rw [sigLookup_merge l r k (mem_sigKeys_left l r k a h1)]
    unfold mergedSigValue
    rw [h1, h2]
  · rw [sigLookup_merge l r k (mem_sigKeys_right l r k b h2)]
    unfold mergedSigValue
    rw [h1, h2]

/-- C9 witness: instantiating the amended signature-mean theorem on
`{a: 1}` and `{a: 2, b: 3}` at channel `b`. -/
theorem signature_mean_skips_missing_witness :
    sigLookup (_merge_signatures [("a", 1)] [("a", 2), ("b", 3)]) "b" = some 3 :=
  (signature_mean_skips_missing [("a", 1)] [("a", 2), ("b", 3)] "b" 0 3).2.2 rfl rfl

/-- C2 counterexample: a succeeding threshold merge on a left population
carrying one cluster clears `left.clusters` in place, so merge does not
leave its inputs unchanged. -/
theorem merge_mutates_left_counterexample :
    ((merge_populations trivShapely leftThrClustered rightThr none).result.toOption.isSome
        = true) ∧
    (merge_populations trivShapely leftThrClustered rightThr none).left_after
        ≠ leftThrClustered ∧
    (merge_populations trivShapely leftThrClustered rightThr none).left_after.clusters
        = [] ∧
    leftThrClustered.clusters ≠ [] := by
  decide

/-- C2 amended: merge is a deterministic function of its inputs and never
mutates `right`; the only in-place mutation of `left` is that the
threshold path clears `left.clusters` (when either input has clusters) —
every other field of `left` is preserved. -/
theorem merge_mutates_at_most_left_clusters (S : Shapely) (l r : Population)
    (name : Option String) :
    (merge_populations S l r name).right_after = r ∧
      ((merge_populations S l r name).left_after = l ∨
        (merge_populations S l r name).left_after = { l with clusters := [] }) := by
  unfold merge_populations
  cases hc : _check_transforms_dimensions l r with
  | error e => exact ⟨rfl, Or.inl rfl⟩
  | ok u =>
      cases u
      dsimp only
      split
      · exact ⟨rfl, Or.inl rfl⟩
      · split
        · exact ⟨rfl, Or.inl rfl⟩
        · split
          · exact merge_thresholds_after l r _
          · exact ⟨(merge_polygons_after S l r _).2.1, Or.inl (merge_polygons_after S l r _).1⟩

/-- C3 counterexample: a succeeding polygon merge on a left population
carrying one cluster emits no voiding warning at all (the threshold path
would emit one), so the polygon path does not apply identical voiding
rules. -/
theorem polygon_merge_no_warning_counterexample :
    leftPoly.clusters ≠ [] ∧
    ((_merge_polygons demoShapely leftPoly rightPoly "m").result.toOption.isSome = true) ∧
    (_merge_polygons demoShapely leftPoly rightPoly "m").emitted = [] := by
  decide

/-- C3 amended: a polygon merge's result does start with empty `clusters`
and empty `control_index`, but — unlike the threshold path — no voiding
warning is ever emitted (and the inputs' clusters are not cleared). -/
theorem polygon_merge_voids_silently (S : Shapely) (l r : Population) (name : String) :
    (∀ p, (_merge_polygons S l r name).result = .ok p →
      p.clusters = [] ∧ p.ctrl_index = []) ∧
    (_merge_polygons S l r name).emitted = [] := by
  refine ⟨?_, (merge_polygons_after S l r name).2.2⟩
  intro p hp
  unfold _merge_polygons at hp
  revert hp
  split
  · intro hp; cases hp
  · split
    · intro hp
      injection hp with hp
      subst hp
      exact ⟨rfl, rfl⟩
    · intro hp; cases hp

/-- C3 witness: instantiating the amended polygon-voiding theorem on the
concrete polygon fixtures. -/
theorem polygon_merge_voids_silently_witness :
    (((_merge_polygons demoShapely leftPoly rightPoly "m").result.toOption).getD
        {}).clusters = [] ∧
    (((_merge_polygons demoShapely leftPoly rightPoly "m").result.toOption).getD
        {}).ctrl_index = [] :=
  (polygon_merge_voids_silently demoShapely leftPoly rightPoly "m").1 _ (by rfl)

/-- C4: for every oracle, Polygon geometry whose shape constructs,
comparison shape and threshold `t`: `overlap` returns `0` when the shapes
do not intersect, and otherwise returns `intersection_area / self_area`
when that fraction is at least `t` and `0` when it is below `t`. -/
theorem overlap_fraction_spec (S : Shapely) (xv yv : List ℚ) (comp : Shape)
    (t : ℚ) (s : Shape) (hs : polyShape xv yv = .ok s) :
    (S.intersects s comp = false → Polygon.overlap S xv yv comp t = .ok 0) ∧
    (S.intersects s comp = true →
      Polygon.overlap S xv yv comp t =
        .ok (if t ≤ S.intersection_area s comp / S.area s
             then S.intersection_area s comp / S.area s else 0)) := by
  constructor
  · intro h
    simp only [Polygon.overlap, hs]
    simp [h]
  · intro h
    simp only [Polygon.overlap, hs]
    simp only [h, if_true]
    split <;> simp

/-- C4 witness: on the all-intersecting demo oracle with intersection
area `1` and area `2`, overlap at threshold `0` returns the fraction
`1/2`. -/
theorem overlap_fraction_spec_witness :
    Polygon.overlap demoShapely [0, 0, 5, 5] [0, 5, 5, 0]
      [(0, 0), (1, 1), (2, 2)] 0 = .ok (mkRat 1 2) := by
  have h := (overlap_fraction_spec demoShapely [0, 0, 5, 5] [0, 5, 5, 0]
      [(0, 0), (1, 1), (2, 2)] 0
      (([0, 0, 5, 5] : List ℚ).zip [0, 5, 5, 0]) rfl).2 rfl
  rw [h]
  decide

/-- C5 counterexample: calling `overlap` on a Threshold geometry fails
with an `AttributeError` (the class has no `overlap` method), which is
not the spec's `GeometryError` — no `GeometryError` exists in the code. -/
theorem overlap_geometry_error_counterexample :
    geomOverlap trivShapely thrGeom [(0, 0), (0, 5), (5, 5), (5, 0)] 0 =
        .error (.attributeError overlapAttrMsg) ∧
      PyError.attributeError overlapAttrMsg ≠ PyError.geometryError := by
  decide

/-- C5 amended: calling `overlap` on a non-Polygon (Threshold) geometry
fails with an `AttributeError`, and on a Polygon with one or two
effective points it fails with shapely's `ValueError` from `LinearRing`
construction; neither failure is a `GeometryError` (no such type exists
in the code, and a 0-point Polygon is the valid empty shape). -/
theorem degenerate_overlap_errors (S : Shapely) (g : PopulationGeometry)
    (comp : Shape) (t : ℚ) :
    (∀ b xt yt, g = .threshold b xt yt →
      geomOverlap S g comp t = .error (.attributeError overlapAttrMsg)) ∧
    (∀ b xv yv, g = .polygon b xv yv →
      ((xv.zip yv).length = 1 ∨ (xv.zip yv).length = 2) →
      geomOverlap S g comp t = .error (.valueError linearRingMsg)) := by
  constructor
  · rintro b xt yt rfl
    rfl
  · rintro b xv yv rfl hlen
    simp only [geomOverlap, Polygon.overlap, polyShape, if_pos hlen]

/-- C5 witness: a one-point Polygon fails with the `LinearRing`
`ValueError`. -/
theorem degenerate_overlap_errors_witness :
    geomOverlap trivShapely (.polygon demoBase [1] [1]) [] 0 =
      .error (.valueError linearRingMsg) :=
  (degenerate_overlap_errors trivShapely _ [] 0).2 demoBase [1] [1] rfl (Or.inl rfl)

/-- C6 counterexample: for inputs whose parents differ and whose
`transform_x` also differs, `merge_populations` fails with the
X-transform assertion, not with the parent-mismatch assertion — the
axis/transform checks run first. -/
theorem parent_mismatch_counterexample :
    leftThrParentAlt.parent ≠ rightThr.parent ∧
    (merge_populations trivShapely leftThrParentAlt rightThr none).result =
        .error (.assertionError xTransformMsg) ∧
    (merge_populations trivShapely leftThrParentAlt rightThr none).result ≠
        .error (.assertionError parentMsg) := by
  decide

/-- C6 amended: when the parents differ, `merge_populations` never
returns a Population (it always fails), and it fails with the
parent-mismatch assertion whenever the prior axis/transform checks
pass. -/
theorem parent_mismatch_after_axis_checks (S : Shapely) (l r : Population)
    (name : Option String) (hp : l.parent ≠ r.parent) :
    (∃ e, (merge_populations S l r name).result = .error e) ∧
    (_check_transforms_dimensions l r = .ok () →
      (merge_populations S l r name).result = .error (.assertionError parentMsg)) := by
  unfold merge_populations
  cases hc : _check_transforms_dimensions l r with
  | error e =>
      refine ⟨⟨e, rfl⟩, fun h => ?_⟩
      simp at h
  | ok u =>
      cases u
      exact ⟨⟨.assertionError parentMsg, by simp [hp]⟩, fun _ => by simp [hp]⟩

/-- C6 witness: two threshold populations with matching axes and parents
`root` vs `p2` fail with the parent-mismatch assertion. -/
theorem parent_mismatch_after_axis_checks_witness :
    (merge_populations trivShapely leftThr rightThrParent2 none).result =
      .error (.assertionError parentMsg) :=
  (parent_mismatch_after_axis_checks trivShapely leftThr rightThrParent2 none
    (by decide)).2 (by decide)

/-- C7: for every pair of Threshold-geometry populations whose
`x_threshold` values differ or whose `y_threshold` values differ, the
threshold merge fails with one of the two threshold-mismatch
assertions. -/
theorem threshold_mismatch_fails (l r : Population) (name : String)
    (lb rb : GeomBase) (lxt lyt rxt ryt : Option ℚ)
    (hl : l.geom = some (.threshold lb lxt lyt))
    (hr : r.geom = some (.threshold rb rxt ryt))
    (hne : lxt ≠ rxt ∨ lyt ≠ ryt) :
    (_merge_thresholds l r name).result = .error (.assertionError xThresholdMsg) ∨
    (_merge_thresholds l r name).result = .error (.assertionError yThresholdMsg) := by
  unfold _merge_thresholds
  simp only [hl, hr]
  by_cases hx : lxt = rxt
  · subst hx
    rcases hne with h | h
    · exact absurd rfl h
    · right
      simp [h]
  · left
    simp [hx]

/-- C7 witness: `x_threshold = 2.5` vs `3.0` (equal `y_threshold`) fails
with a threshold-mismatch assertion. -/
theorem threshold_mismatch_fails_witness :
    (_merge_thresholds leftThr rightThrCut3 "m").result =
        .error (.assertionError xThresholdMsg) ∨
      (_merge_thresholds leftThr rightThrCut3 "m").result =
        .error (.assertionError yThresholdMsg) :=
  threshold_mismatch_fails leftThr rightThrCut3 "m" demoBase demoBase
    (some (5 / 2)) (some (5 / 2)) (some 3) (some (5 / 2)) rfl rfl
    (Or.inl (by decide))

/-- C8: if a thresholded overlap is non-zero then the unthresholded
overlap is the intersection fraction and that fraction is at least the
threshold (`A.overlap(B.shape, 0) >= t`). -/
theorem overlap_threshold_lower_bound (S : Shapely) (axv ayv bxv byv : List ℚ)
    (t v : ℚ) (sB : Shape) (ht0 : 0 ≤ t) (ht1 : t ≤ 1)
    (hB : polyShape bxv byv = .ok sB)
    (hov : Polygon.overlap S axv ayv sB t = .ok v) (hv : v ≠ 0) :
    Polygon.overlap S axv ayv sB 0 =
        .ok (S.intersection_area (axv.zip ayv) sB / S.area (axv.zip ayv)) ∧
      t ≤ S.intersection_area (axv.zip ayv) sB / S.area (axv.zip ayv) := by
  unfold Polygon.overlap at hov ⊢
  cases hA : polyShape axv ayv with
  | error e =>
      rw [hA] at hov
      simp at hov
  | ok sA =>
      have hzip : sA = axv.zip ayv := polyShape_ok_eq axv ayv sA hA
      subst hzip
      rw [hA] at hov
      dsimp only at hov ⊢
      by_cases hi : S.intersects (axv.zip ayv) sB = true
      · rw [if_pos hi] at hov
        by_cases hf : t ≤ S.intersection_area (axv.zip ayv) sB / S.area (axv.zip ayv)
        · rw [if_pos hf] at hov
          rw [if_pos hi, if_pos (ht0.trans hf)]
          exact ⟨rfl, hf⟩
        · rw [if_neg hf] at hov
          injection hov with hov
          exact absurd hov.symm hv
      · rw [if_neg hi] at hov
        injection hov with hov
        exact absurd hov.symm hv

/-- C8 witness: on the demo oracle the overlap at threshold `1/2` is the
non-zero `1/2`, and the overlap at threshold `0` is the fraction, which
is at least `1/2`. -/
theorem overlap_threshold_lower_bound_witness :
    Polygon.overlap demoShapely [0, 0, 5, 5] [0, 5, 5, 0]
        [(0, 0), (1, 1), (2, 2)] 0 =
      .ok (demoShapely.intersection_area
            (([0, 0, 5, 5] : List ℚ).zip [0, 5, 5, 0]) [(0, 0), (1, 1), (2, 2)] /
          demoShapely.area (([0, 0, 5, 5] : List ℚ).zip [0, 5, 5, 0])) ∧
    mkRat 1 2 ≤ demoShapely.intersection_area
          (([0, 0, 5, 5] : List ℚ).zip [0, 5, 5, 0]) [(0, 0), (1, 1), (2, 2)] /
        demoShapely.area (([0, 0, 5, 5] : List ℚ).zip [0, 5, 5, 0]) :=
  overlap_threshold_lower_bound demoShapely [0, 0, 5, 5] [0, 5, 5, 0]
    [0, 1, 2] [0, 1, 2] (mkRat 1 2) (mkRat 1 2) [(0, 0), (1, 1), (2, 2)]
    (by decide) (by decide) (by decide) (by decide) (by decide)

/-- C10: once the threshold checks pass, the threshold merge completes
only when both `definition` fields are set; an unset left (resp. right)
`definition` makes the comma-join fail with an unhandled `TypeError`,
not with any assertion from the documented taxonomy. -/
theorem definition_none_gives_typeerror (l r : Population) (name : String)
    (lb rb : GeomBase) (xt yt : Option ℚ)
    (hl : l.geom = some (.threshold lb xt yt))
    (hr : r.geom = some (.threshold rb xt yt)) :
    (l.definition = none →
      (_merge_thresholds l r name).result = .error (.typeError joinItem0Msg)) ∧
    (∀ d, l.definition = some d → r.definition = none →
      (_merge_thresholds l r name).result = .error (.typeError joinItem1Msg)) ∧
    (∀ p, (_merge_thresholds l r name).result = .ok p →
      l.definition ≠ none ∧ r.definition ≠ none) := by
  unfold _merge_thresholds
  simp only [hl, hr, ne_eq, not_true_eq_false, if_false]
  unfold thresholdMergeBody
  simp only [clusterVoidLeft_definition]
  refine ⟨fun h1 => ?_, fun d hd h2 => ?_, fun p hp => ?_⟩
  · simp [h1, joinDefinitions]
  · simp [hd, h2, joinDefinitions]
  · revert hp
    cases hld : l.definition with
    | none => simp [joinDefinitions]
    | some d =>
        cases hrd : r.definition with
        | none => simp [joinDefinitions]
        | some e =>
            intro hp
            simp

/-- C10 witness: a left population with unset `definition` makes the
threshold merge fail with the `TypeError` from the comma-join. -/
theorem definition_none_gives_typeerror_witness :
    (_merge_thresholds leftThrNoDef rightThr "m").result =
      .error (.typeError joinItem0Msg) :=
  (definition_none_gives_typeerror leftThrNoDef rightThr "m" demoBase demoBase
    (some (5 / 2)) (some (5 / 2)) rfl rfl).1 rfl

end CytoPy
